import Mathlib

/-!
Shallow embedding of `src/Simple Task Queue/Task Queue.py`.

The Python program is a `TaskQueue` class: an unbounded FIFO `queue.Queue`
shared by worker threads.  `submit(task, retries=3)` puts the tuple
`(task, retries)` on the queue.  Each worker runs

```
while self.running:
    try:
        task, retries = self.task_queue.get(timeout=1)
        try:
            task()
        except Exception as e:
            if retries > 0:
                print("Retrying task...")
                self.submit(task, retries - 1)
        finally:
            self.task_queue.task_done()
    except queue.Empty:
        continue
```

We embed the observable behaviour as a deterministic small-step machine:
the queue is a Lean list (head = front), `queue.Queue.unfinished_tasks`
is an explicit counter (`put` increments it, `task_done` decrements it;
`Queue.join` returns exactly when it is zero), printed text goes to a log,
and each `task()` call is recorded in an execution history.  A task is a
zero-argument Python closure whose observable effect at its `n`-th call is
"returns normally" or "raises an `Exception`"; we therefore model it as a
function `Nat → Bool` applied to an explicit call counter, plus an
identifier for bookkeeping.  `retries` is a Python `int`, hence `Int`.

The worker loop is run with explicit fuel; the value of the shared
`self.running` flag as observed by the `while` test at each iteration is an
arbitrary function of the iteration index, which lets the flag flip at any
point, as `shutdown()` may do concurrently.
-/

namespace TaskQueue

/-- A Python task closure: `taskId` identifies the logical task,
`behavior n` tells whether the `n`-th call of the closure returns normally
(`true`) or raises an `Exception` (`false`), and `execCount` is the number
of calls made to this closure so far. -/
structure Task where
  taskId : Nat
  behavior : Nat → Bool
  execCount : Nat

/-- The tuple `(task, retries)` that `submit` puts on `self.task_queue`. -/
structure WorkItem where
  task : Task
  retries : Int

/-- Observable state of the `TaskQueue` object: the pending items of
`self.task_queue` (head is the front, `put` appends at the tail), the
`unfinished_tasks` counter of `queue.Queue` (incremented by `put`,
decremented by `task_done`; `join()` unblocks exactly when it is zero),
the text printed so far, the `task()` calls made so far (by task id, in
order), and the number of `task_done()` calls made so far. -/
structure State where
  queue : List WorkItem
  unfinished : Nat
  log : List String
  execs : List Nat
  doneCalls : Nat

/-- The `retries=3` default of `def submit(self, task, retries=3)`. -/
def defaultRetries : Int := 3

/-- `submit(self, task, retries)`: `self.task_queue.put((task, retries))`.
`put` on an unbounded `queue.Queue` appends at the tail, increments
`unfinished_tasks`, never blocks and never fails. -/
def submit (s : State) (t : Task) (retries : Int) : State :=
  { s with queue := s.queue ++ [⟨t, retries⟩],
           unfinished := s.unfinished + 1 }

/-- `self.task_queue.task_done()`: decrements `unfinished_tasks`. -/
def taskDone (s : State) : State :=
  { s with unfinished := s.unfinished - 1,
           doneCalls := s.doneCalls + 1 }

/-- The `except Exception` handler of `worker`: if `retries > 0`, print
`"Retrying task..."` and `self.submit(task, retries - 1)`; otherwise do
nothing.  The resubmitted closure is the same object, one call further on. -/
def handleFailure (s : State) (t : Task) (retries : Int) : State :=
  if retries > 0 then
    submit { s with log := s.log ++ ["Retrying task..."] }
      { t with execCount := t.execCount + 1 } (retries - 1)
  else s

/-- The body of the outer `try` of `worker` after a successful
`get(timeout=1)` returned the item `w`: call `task()` (recorded in the
execution history; the call raises iff `behavior execCount = false`), run
the `except Exception` handler on failure, and in all cases run the
`finally: self.task_queue.task_done()`. -/
def processItem (s : State) (w : WorkItem) : State :=
  let s1 : State := { s with execs := s.execs ++ [w.task.taskId] }
  taskDone (if w.task.behavior w.task.execCount then s1
            else handleFailure s1 w.task w.retries)

/-- What a worker did in one loop iteration: processed a dequeued item, or
`get(timeout=1)` raised `queue.Empty`. -/
inductive Event where
  | processed (taskId : Nat)
  | timedOut
deriving DecidableEq, Repr

/-- Whether a loop iteration dequeued and processed an item (as opposed to
`get(timeout=1)` raising `queue.Empty`). -/
def isProcessed : Event → Bool
  | Event.processed _ => true
  | Event.timedOut => false

/-- Result of running a worker loop for a bounded number of iterations. -/
structure RunResult where
  state : State
  events : List Event
  exited : Bool

/-- The `worker` loop run for at most `fuel` iterations, one worker.
`running j` is the value of `self.running` observed by the `while` test at
iteration `j`; `i` is the current iteration index.  `exited = true` means
the `while` test observed `false` and the thread function returned. -/
def runWorker (running : Nat → Bool) : Nat → Nat → State → RunResult
  | 0, _, s => ⟨s, [], false⟩
  | fuel + 1, i, s =>
    if running i then
      match s.queue with
      | [] =>
        let r := runWorker running fuel (i + 1) s
        ⟨r.state, Event.timedOut :: r.events, r.exited⟩
      | w :: rest =>
        let r := runWorker running fuel (i + 1)
          (processItem { s with queue := rest } w)
        ⟨r.state, Event.processed w.task.taskId :: r.events, r.exited⟩
    else ⟨s, [], true⟩

/-- A fresh `TaskQueue` state: empty queue, zero counters, nothing printed. -/
def initState : State := ⟨[], 0, [], [], 0⟩

/-- The items the `except Exception` handler appends to the queue when the
dequeued item `w` is processed: the decremented copy when the call raised
and `retries > 0`, nothing otherwise. -/
def retryItems (w : WorkItem) : List WorkItem :=
  if w.task.behavior w.task.execCount then []
  else if 0 < w.retries then
    [⟨{ w.task with execCount := w.task.execCount + 1 }, w.retries - 1⟩]
  else []

/-- An upper bound on the number of future executions a single queued item
can cause for the logical task `t`. -/
def itemPot (t : Nat) (w : WorkItem) : Nat :=
  if w.task.taskId = t then w.retries.toNat + 1 else 0

/-- An upper bound on the number of future executions the queue can cause
for the logical task `t`. -/
def pot (t : Nat) (q : List WorkItem) : Nat :=
  (q.map (itemPot t)).sum

end TaskQueue

namespace TaskQueue

theorem processItem_execs (s : State) (w : WorkItem) :
    (processItem s w).execs = s.execs ++ [w.task.taskId] := by
  unfold processItem taskDone handleFailure submit
  split <;> [skip; split] <;> rfl

theorem processItem_queue (s : State) (w : WorkItem) :
    (processItem s w).queue = s.queue ++ retryItems w := by
  unfold processItem taskDone handleFailure submit retryItems
  split <;> [simp; split <;> simp]

theorem processItem_doneCalls (s : State) (w : WorkItem) :
    (processItem s w).doneCalls = s.doneCalls + 1 := by
  unfold processItem taskDone handleFailure submit
  split <;> [skip; split] <;> rfl

theorem pot_append (t : Nat) (a b : List WorkItem) :
    pot t (a ++ b) = pot t a + pot t b := by
  simp [pot]

theorem pot_cons (t : Nat) (w : WorkItem) (q : List WorkItem) :
    pot t (w :: q) = itemPot t w + pot t q := by
  simp [pot]

theorem pot_retryItems (t : Nat) (w : WorkItem) :
    (if w.task.taskId = t then 1 else 0) + pot t (retryItems w)
      ≤ itemPot t w := by
  unfold retryItems itemPot
  by_cases hb : w.task.behavior w.task.execCount = true <;>
    by_cases hr : 0 < w.retries <;>
    by_cases ht : w.task.taskId = t <;>
    simp [hb, hr, ht, pot, itemPot] <;>
    omega

/-- Along a worker run, the number of executions of the logical task `t`
can grow by at most the potential stored in the queue. -/
theorem count_le_pot (running : Nat → Bool) (fuel i : Nat) (s : State)
    (t : Nat) :
    ((runWorker running fuel i s).state.execs.count t)
      ≤ s.execs.count t + pot t s.queue := by
  induction fuel generalizing i s with
  | zero => simp [runWorker]
  | succ fuel ih =>
    unfold runWorker
    split
    · match hq : s.queue with
      | [] =>
        simpa [hq] using ih (i + 1) s
      | w :: rest =>
        simp only
        have h1 := ih (i + 1) (processItem { s with queue := rest } w)
        have h2 := pot_retryItems t w
        rw [processItem_execs, processItem_queue] at h1
        simp only [List.count_append, pot_append] at h1
        rw [pot_cons]
        by_cases ht : w.task.taskId = t
        · simp [ht, List.count_cons, itemPot] at h1 h2 ⊢
          omega
        · simp [ht, List.count_cons, itemPot] at h1 h2 ⊢
          omega
    · simp

theorem runWorker_stop (running : Nat → Bool) (fuel i : Nat) (s : State)
    (h : running i = false) :
    runWorker running (fuel + 1) i s = ⟨s, [], true⟩ := by
  unfold runWorker
  simp [h]

theorem runWorker_empty (running : Nat → Bool) (fuel i : Nat) (s : State)
    (h : running i = true) (hq : s.queue = []) :
    runWorker running (fuel + 1) i s =
      ⟨(runWorker running fuel (i + 1) s).state,
       Event.timedOut :: (runWorker running fuel (i + 1) s).events,
       (runWorker running fuel (i + 1) s).exited⟩ := by
  conv_lhs => rw [runWorker]
  rw [hq]
  simp [h]

theorem runWorker_cons (running : Nat → Bool) (fuel i : Nat) (s : State)
    (w : WorkItem) (rest : List WorkItem) (h : running i = true)
    (hq : s.queue = w :: rest) :
    runWorker running (fuel + 1) i s =
      ⟨(runWorker running fuel (i + 1) (processItem { s with queue := rest } w)).state,
       Event.processed w.task.taskId ::
         (runWorker running fuel (i + 1) (processItem { s with queue := rest } w)).events,
       (runWorker running fuel (i + 1) (processItem { s with queue := rest } w)).exited⟩ := by
  conv_lhs => rw [runWorker]
  rw [hq]
  simp [h]

/-- C1: a task submitted with retry budget `R ≥ 0` into a queue holding no
other item of the same logical task is executed at most `R + 1` times over
any worker run, however long and however the running flag behaves; and in
the concrete scenario of an always-failing task submitted with
`retries = 2`, it is executed exactly 3 times, the queue is then empty
(silent drop, no further resubmission) and `unfinished_tasks` is back to
zero, so `join()` returns. -/
theorem retry_bound (running : Nat → Bool) (fuel : Nat) (s : State)
    (t : Task) (R : Int) (hR : 0 ≤ R)
    (hFresh : pot t.taskId s.queue = 0)
    (hNew : s.execs.count t.taskId = 0) :
    (((runWorker running fuel 0 (submit s t R)).state.execs.count t.taskId : Int)
        ≤ R + 1) ∧
    (runWorker (fun _ => true) 4 0
        (submit initState ⟨0, fun _ => false, 0⟩ 2)).state.execs = [0, 0, 0] ∧
    (runWorker (fun _ => true) 4 0
        (submit initState ⟨0, fun _ => false, 0⟩ 2)).state.queue = [] ∧
    (runWorker (fun _ => true) 4 0
        (submit initState ⟨0, fun _ => false, 0⟩ 2)).state.unfinished = 0 := by
  refine ⟨?_, rfl, rfl, rfl⟩
  have h := count_le_pot running fuel 0 (submit s t R) t.taskId
  have hq : pot t.taskId (submit s t R).queue = R.toNat + 1 := by
    rw [show (submit s t R).queue = s.queue ++ [⟨t, R⟩] from rfl, pot_append,
      hFresh]
    simp [pot, itemPot]
  rw [hq, show (submit s t R).execs = s.execs from rfl, hNew] at h
  omega

/-- Witness for C1 at a concrete input: task id 5, always failing,
submitted with budget 2 into the fresh state. -/
theorem retry_bound_witness :
    (((runWorker (fun _ => true) 4 0
        (submit initState ⟨5, fun _ => false, 0⟩ 2)).state.execs.count 5 : Int)
      ≤ 2 + 1) ∧
    (runWorker (fun _ => true) 4 0
        (submit initState ⟨0, fun _ => false, 0⟩ 2)).state.execs = [0, 0, 0] ∧
    (runWorker (fun _ => true) 4 0
        (submit initState ⟨0, fun _ => false, 0⟩ 2)).state.queue = [] ∧
    (runWorker (fun _ => true) 4 0
        (submit initState ⟨0, fun _ => false, 0⟩ 2)).state.unfinished = 0 :=
  retry_bound (fun _ => true) 4 initState ⟨5, fun _ => false, 0⟩ 2
    (by decide) (by rfl) (by rfl)

/-- C2: processing a dequeued item whose `task()` call raises appends, when
`retries > 0`, the same closure with budget `retries - 1` at the tail of
the queue and prints the `"Retrying task..."` notice; when `retries = 0`
the item is dropped silently: queue and log are unchanged, nothing is
produced beyond the execution record and the `task_done` call. -/
theorem failure_path (s : State) (w : WorkItem)
    (hfail : w.task.behavior w.task.execCount = false) :
    (0 < w.retries →
      processItem s w =
        { s with
          queue := s.queue ++
            [⟨{ w.task with execCount := w.task.execCount + 1 }, w.retries - 1⟩],
          log := s.log ++ ["Retrying task..."],
          execs := s.execs ++ [w.task.taskId],
          doneCalls := s.doneCalls + 1 }) ∧
    (w.retries = 0 →
      processItem s w =
        { s with
          unfinished := s.unfinished - 1,
          execs := s.execs ++ [w.task.taskId],
          doneCalls := s.doneCalls + 1 }) := by
  constructor
  · intro hr
    simp [processItem, hfail, handleFailure, hr, submit, taskDone]
  · intro hr
    simp [processItem, hfail, handleFailure, hr, submit, taskDone]

/-- Witness for C2: a concrete always-failing item with budget 2 in the
fresh state. -/
theorem failure_path_witness :
    (0 < (2 : Int) →
      processItem initState ⟨⟨3, fun _ => false, 0⟩, 2⟩ =
        { initState with
          queue := [⟨⟨3, fun _ => false, 1⟩, 1⟩],
          log := ["Retrying task..."],
          execs := [3],
          doneCalls := 1 }) ∧
    ((2 : Int) = 0 →
      processItem initState ⟨⟨3, fun _ => false, 0⟩, 2⟩ =
        { initState with
          unfinished := 0 - 1,
          execs := [3],
          doneCalls := 1 }) :=
  failure_path initState ⟨⟨3, fun _ => false, 0⟩, 2⟩ rfl

/-- C3 counterexample: with the running flag observed true at iteration 0
and false at iteration 1, a worker that dequeues and successfully executes
one item at iteration 0 exits at iteration 1 without any dequeue attempt:
the run exits, yet its only event is a processed item — the last thing the
worker did before exiting was completing an execution, not timing out. -/
theorem exited_without_timeout :
    (runWorker (fun i => i == 0) 2 0
        (submit initState ⟨0, fun _ => true, 0⟩ 3)).exited = true ∧
    (runWorker (fun i => i == 0) 2 0
        (submit initState ⟨0, fun _ => true, 0⟩ 3)).events =
      [Event.processed 0] ∧
    (runWorker (fun i => i == 0) 2 0
        (submit initState ⟨0, fun _ => true, 0⟩ 3)).events.getLast? ≠
      some Event.timedOut :=
  ⟨rfl, rfl, by decide⟩

/-- C3 amended: a worker reaches Exited exactly when the `while` test
observes the shared running flag false; that test precedes any dequeue
attempt, so exit requires no dequeue timeout: at every earlier iteration
the flag was observed true (whether that iteration processed an item or
timed out), and the exit iteration performs no dequeue at all. -/
theorem exited_at_flag_false (running : Nat → Bool) (fuel i : Nat)
    (s : State) (hex : (runWorker running fuel i s).exited = true) :
    running (i + (runWorker running fuel i s).events.length) = false ∧
    ∀ j, j < (runWorker running fuel i s).events.length →
      running (i + j) = true := by
  induction fuel generalizing i s with
  | zero => simp [runWorker] at hex
  | succ fuel ih =>
    by_cases hr : running i = true
    · match hq : s.queue with
      | [] =>
        rw [runWorker_empty running fuel i s hr hq] at hex ⊢
        simp only [List.length_cons] at hex ⊢
        obtain ⟨h1, h2⟩ := ih (i + 1) s hex
        constructor
        · rw [show i + ((runWorker running fuel (i + 1) s).events.length + 1)
              = i + 1 + (runWorker running fuel (i + 1) s).events.length
            from by omega]
          exact h1
        · intro j hj
          match j with
          | 0 => simpa using hr
          | j + 1 =>
            rw [show i + (j + 1) = i + 1 + j from by omega]
            exact h2 j (by omega)
      | w :: rest =>
        rw [runWorker_cons running fuel i s w rest hr hq] at hex ⊢
        simp only [List.length_cons] at hex ⊢
        obtain ⟨h1, h2⟩ :=
          ih (i + 1) (processItem { s with queue := rest } w) hex
        constructor
        · rw [show i + ((runWorker running fuel (i + 1)
                (processItem { s with queue := rest } w)).events.length + 1)
              = i + 1 + (runWorker running fuel (i + 1)
                (processItem { s with queue := rest } w)).events.length
            from by omega]
          exact h1
        · intro j hj
          match j with
          | 0 => simpa using hr
          | j + 1 =>
            rw [show i + (j + 1) = i + 1 + j from by omega]
            exact h2 j (by omega)
    · have hr' : running i = false := by simpa using hr
      rw [runWorker_stop running fuel i s hr']
      simpa using hr'

/-- Witness for C3 amended: the flag is false from the start, so the run
of one iteration exits at once, having observed the flag false after zero
events. -/
theorem exited_at_flag_false_witness :
    (fun _ => false : Nat → Bool)
        (0 + (runWorker (fun _ => false) 1 0 initState).events.length)
      = false ∧
    ∀ j, j < (runWorker (fun _ => false) 1 0 initState).events.length →
      (fun _ => false : Nat → Bool) (0 + j) = true :=
  exited_at_flag_false (fun _ => false) 1 0 initState rfl

/-- C4: `task_done()` is executed in a `finally`, hence exactly once per
dequeued item on the success path and on both failure sub-cases alike,
whether or not a successor item was enqueued; consequently over any worker
run the `task_done` counter grows by exactly the number of processed
events. -/
theorem mark_done_once (running : Nat → Bool) (fuel i : Nat) (s : State)
    (w : WorkItem) :
    (processItem s w).doneCalls = s.doneCalls + 1 ∧
    (runWorker running fuel i s).state.doneCalls =
      s.doneCalls + (runWorker running fuel i s).events.countP isProcessed := by
  refine ⟨processItem_doneCalls s w, ?_⟩
  induction fuel generalizing i s with
  | zero => simp [runWorker]
  | succ fuel ih =>
    by_cases hr : running i = true
    · match hq : s.queue with
      | [] =>
        rw [runWorker_empty running fuel i s hr hq]
        have h1 := ih (i + 1) s
        simp [isProcessed] at h1 ⊢
        omega
      | x :: rest =>
        rw [runWorker_cons running fuel i s x rest hr hq]
        have h1 := ih (i + 1) (processItem { s with queue := rest } x)
        rw [processItem_doneCalls] at h1
        simp [isProcessed] at h1 ⊢
        omega
    · have hr' : running i = false := by simpa using hr
      rw [runWorker_stop running fuel i s hr']
      simp

/-- C5: when the `task()` call returns normally, the item is done: the
queue is untouched whatever the remaining budget (no resubmission),
nothing is printed, `task_done` is called, and the worker goes back to the
top of its loop — the iteration that processed the item is followed by the
normal continuation of the run. -/
theorem success_path (running : Nat → Bool) (fuel i : Nat) (s : State)
    (w : WorkItem) (rest : List WorkItem)
    (hok : w.task.behavior w.task.execCount = true) :
    processItem s w =
      { s with
        unfinished := s.unfinished - 1,
        execs := s.execs ++ [w.task.taskId],
        doneCalls := s.doneCalls + 1 } ∧
    (running i = true → s.queue = w :: rest →
      runWorker running (fuel + 1) i s =
        ⟨(runWorker running fuel (i + 1)
            (processItem { s with queue := rest } w)).state,
         Event.processed w.task.taskId ::
           (runWorker running fuel (i + 1)
             (processItem { s with queue := rest } w)).events,
         (runWorker running fuel (i + 1)
           (processItem { s with queue := rest } w)).exited⟩) := by
  constructor
  · simp [processItem, hok, taskDone]
  · intro h1 h2
    exact runWorker_cons running fuel i s w rest h1 h2

/-- Witness for C5: a single always-succeeding item with budget 3,
processed by one iteration of the loop. -/
theorem success_path_witness :
    processItem ⟨[⟨⟨4, fun _ => true, 0⟩, 3⟩], 1, [], [], 0⟩
        ⟨⟨4, fun _ => true, 0⟩, 3⟩ =
      ⟨[⟨⟨4, fun _ => true, 0⟩, 3⟩], 0, [], [4], 1⟩ ∧
    ((fun _ => true : Nat → Bool) 0 = true →
      ([⟨⟨4, fun _ => true, 0⟩, 3⟩] : List WorkItem) =
        ⟨⟨4, fun _ => true, 0⟩, 3⟩ :: [] →
      runWorker (fun _ => true) 1 0
          ⟨[⟨⟨4, fun _ => true, 0⟩, 3⟩], 1, [], [], 0⟩ =
        ⟨⟨[], 0, [], [4], 1⟩, [Event.processed 4], false⟩) :=
  success_path (fun _ => true) 0 0
    ⟨[⟨⟨4, fun _ => true, 0⟩, 3⟩], 1, [], [], 0⟩
    ⟨⟨4, fun _ => true, 0⟩, 3⟩ [] rfl

/-- C6: a failure raised by `task()` is caught inside the worker: the loop
iteration that processed the failing item ends normally and the run
continues on the post-processing state exactly as after any other
iteration — the failure reaches neither the caller nor the loop; and in a
concrete run a task that fails with no budget left is followed by the
normal execution of the next queued task. -/
theorem failure_recovered (running : Nat → Bool) (fuel i : Nat) (s : State)
    (w : WorkItem) (rest : List WorkItem) (hr : running i = true)
    (hq : s.queue = w :: rest)
    (hfail : w.task.behavior w.task.execCount = false) :
    runWorker running (fuel + 1) i s =
      ⟨(runWorker running fuel (i + 1)
          (processItem { s with queue := rest } w)).state,
       Event.processed w.task.taskId ::
         (runWorker running fuel (i + 1)
           (processItem { s with queue := rest } w)).events,
       (runWorker running fuel (i + 1)
         (processItem { s with queue := rest } w)).exited⟩ ∧
    (runWorker (fun _ => true) 3 0
        ⟨[⟨⟨0, fun _ => false, 0⟩, 0⟩, ⟨⟨1, fun _ => true, 0⟩, 0⟩],
         2, [], [], 0⟩).state.execs = [0, 1] :=
  ⟨runWorker_cons running fuel i s w rest hr hq, rfl⟩

/-- Witness for C6: one failing item with empty budget ahead of one
succeeding item; the failing execution is absorbed and the run goes on. -/
theorem failure_recovered_witness :
    runWorker (fun _ => true) 1 0
        ⟨[⟨⟨0, fun _ => false, 0⟩, 0⟩, ⟨⟨1, fun _ => true, 0⟩, 0⟩],
         2, [], [], 0⟩ =
      ⟨⟨[⟨⟨1, fun _ => true, 0⟩, 0⟩], 1, [], [0], 1⟩,
       [Event.processed 0], false⟩ ∧
    (runWorker (fun _ => true) 3 0
        ⟨[⟨⟨0, fun _ => false, 0⟩, 0⟩, ⟨⟨1, fun _ => true, 0⟩, 0⟩],
         2, [], [], 0⟩).state.execs = [0, 1] :=
  failure_recovered (fun _ => true) 0 0
    ⟨[⟨⟨0, fun _ => false, 0⟩, 0⟩, ⟨⟨1, fun _ => true, 0⟩, 0⟩], 2, [], [], 0⟩
    ⟨⟨0, fun _ => false, 0⟩, 0⟩ [⟨⟨1, fun _ => true, 0⟩, 0⟩] rfl rfl rfl

/-- C7: a dequeue always takes the head of the queue, so the first event
of any iteration that finds the queue non-empty processes the front item;
with one worker, two always-succeeding tasks A then B execute in
submission order, while a task that fails once is completed only after the
task submitted behind it, because its retry copy goes to the tail. -/
theorem fifo_order (running : Nat → Bool) (fuel i : Nat) (s : State)
    (w : WorkItem) (rest : List WorkItem) (hr : running i = true)
    (hq : s.queue = w :: rest) :
    (runWorker running (fuel + 1) i s).events.head? =
      some (Event.processed w.task.taskId) ∧
    (runWorker (fun _ => true) 2 0
        (submit (submit initState ⟨0, fun _ => true, 0⟩ 3)
          ⟨1, fun _ => true, 0⟩ 3)).state.execs = [0, 1] ∧
    (runWorker (fun _ => true) 3 0
        (submit (submit initState ⟨0, fun n => decide (0 < n), 0⟩ 3)
          ⟨1, fun _ => true, 0⟩ 3)).state.execs = [0, 1, 0] := by
  refine ⟨?_, rfl, rfl⟩
  rw [runWorker_cons running fuel i s w rest hr hq]
  rfl

/-- Witness for C7: a single queued item with task id 7 is the one the
next iteration processes. -/
theorem fifo_order_witness :
    (runWorker (fun _ => true) 1 0
        ⟨[⟨⟨7, fun _ => true, 0⟩, 3⟩], 1, [], [], 0⟩).events.head? =
      some (Event.processed 7) ∧
    (runWorker (fun _ => true) 2 0
        (submit (submit initState ⟨0, fun _ => true, 0⟩ 3)
          ⟨1, fun _ => true, 0⟩ 3)).state.execs = [0, 1] ∧
    (runWorker (fun _ => true) 3 0
        (submit (submit initState ⟨0, fun n => decide (0 < n), 0⟩ 3)
          ⟨1, fun _ => true, 0⟩ 3)).state.execs = [0, 1, 0] :=
  fifo_order (fun _ => true) 0 0
    ⟨[⟨⟨7, fun _ => true, 0⟩, 3⟩], 1, [], [], 0⟩
    ⟨⟨7, fun _ => true, 0⟩, 3⟩ [] rfl rfl

/-- C8: `submit` wraps the task and its budget (default 3) into the
`(task, retries)` tuple and puts it at the tail of the unbounded queue:
all earlier queue content is unchanged, the new tuple is the last element,
the unfinished counter goes up by one, and nothing else of the state is
touched — there is no failure outcome and no blocking in the model of
`queue.Queue.put`. -/
theorem submit_spec (s : State) (t : Task) (r : Int) :
    (submit s t r).queue = s.queue ++ [⟨t, r⟩] ∧
    (submit s t r).queue.take s.queue.length = s.queue ∧
    (submit s t r).queue.getLast? = some ⟨t, r⟩ ∧
    (submit s t r).unfinished = s.unfinished + 1 ∧
    (submit s t r).log = s.log ∧
    (submit s t r).execs = s.execs ∧
    (submit s t r).doneCalls = s.doneCalls ∧
    defaultRetries = 3 := by
  refine ⟨rfl, ?_, ?_, rfl, rfl, rfl, rfl, rfl⟩
  · simp [submit]
  · simp [submit]

/-- C9: on the failure path with budget left, the decremented successor is
put on the queue before `task_done` runs: `processItem` factors as
`taskDone` applied after the resubmission, the intermediate state carries
`unfinished + 1`, and the final count equals the initial one — positive
whenever the dequeued item was itself counted, so the counter never
reaches zero while the retry successor is pending and `join()` stays
blocked. -/
theorem resubmit_before_task_done (s : State) (w : WorkItem)
    (hfail : w.task.behavior w.task.execCount = false)
    (hr : 0 < w.retries) (hu : 1 ≤ s.unfinished) :
    processItem s w =
      taskDone (submit
        { s with
          log := s.log ++ ["Retrying task..."],
          execs := s.execs ++ [w.task.taskId] }
        { w.task with execCount := w.task.execCount + 1 } (w.retries - 1)) ∧
    (submit
        { s with
          log := s.log ++ ["Retrying task..."],
          execs := s.execs ++ [w.task.taskId] }
        { w.task with execCount := w.task.execCount + 1 }
        (w.retries - 1)).unfinished = s.unfinished + 1 ∧
    (processItem s w).unfinished = s.unfinished ∧
    0 < (processItem s w).unfinished := by
  have hfin : (processItem s w).unfinished = s.unfinished := by
    simp [processItem, hfail, handleFailure, hr, submit, taskDone]
  refine ⟨?_, rfl, hfin, by omega⟩
  simp [processItem, hfail, handleFailure, hr]

/-- Witness for C9: a failing item with budget 1, dequeued from a state
whose unfinished counter is 1. -/
theorem resubmit_before_task_done_witness :
    processItem ⟨[], 1, [], [], 0⟩ ⟨⟨2, fun _ => false, 0⟩, 1⟩ =
      taskDone (submit ⟨[], 1, ["Retrying task..."], [2], 0⟩
        ⟨2, fun _ => false, 1⟩ 0) ∧
    (submit ⟨[], 1, ["Retrying task..."], [2], 0⟩
        ⟨2, fun _ => false, 1⟩ 0).unfinished = 1 + 1 ∧
    (processItem ⟨[], 1, [], [], 0⟩ ⟨⟨2, fun _ => false, 0⟩, 1⟩).unfinished
      = 1 ∧
    0 < (processItem ⟨[], 1, [], [], 0⟩
        ⟨⟨2, fun _ => false, 0⟩, 1⟩).unfinished :=
  resubmit_before_task_done ⟨[], 1, [], [], 0⟩ ⟨⟨2, fun _ => false, 0⟩, 1⟩
    rfl (by decide) (by decide)

/-- C10: `submit` validates nothing, and the resubmission guard
`retries > 0` is false for every non-positive value, so a negative budget
behaves exactly like budget 0: processing the dequeued item yields
identical states; concretely, an always-failing task submitted with
`retries = -5` is executed once and dropped with no resubmission and no
notice. -/
theorem negative_retries (s : State) (w : WorkItem) (r : Int)
    (hneg : r ≤ 0) :
    processItem s { w with retries := r } =
      processItem s { w with retries := 0 } ∧
    (runWorker (fun _ => true) 2 0
        (submit initState ⟨7, fun _ => false, 0⟩ (-5))).state.execs = [7] ∧
    (runWorker (fun _ => true) 2 0
        (submit initState ⟨7, fun _ => false, 0⟩ (-5))).state.queue = [] ∧
    (runWorker (fun _ => true) 2 0
        (submit initState ⟨7, fun _ => false, 0⟩ (-5))).state.log = [] := by
  refine ⟨?_, rfl, rfl, rfl⟩
  have hnr : ¬ (0 < r) := by omega
  by_cases hb : w.task.behavior w.task.execCount = true
  · simp [processItem, hb]
  · simp [processItem, hb, handleFailure, hnr]

/-- Witness for C10: budget -1 against budget 0 on a failing task. -/
theorem negative_retries_witness :
    processItem initState ⟨⟨9, fun _ => false, 0⟩, -1⟩ =
      processItem initState ⟨⟨9, fun _ => false, 0⟩, 0⟩ ∧
    (runWorker (fun _ => true) 2 0
        (submit initState ⟨7, fun _ => false, 0⟩ (-5))).state.execs = [7] ∧
    (runWorker (fun _ => true) 2 0
        (submit initState ⟨7, fun _ => false, 0⟩ (-5))).state.queue = [] ∧
    (runWorker (fun _ => true) 2 0
        (submit initState ⟨7, fun _ => false, 0⟩ (-5))).state.log = [] :=
  negative_retries initState ⟨⟨9, fun _ => false, 0⟩, -1⟩ (-1) (by decide)

end TaskQueue
